import Mathlib

/-!
Shallow embedding of the core of `magic-nix-cache`: the binary-cache
protocol handlers (`src/magic-nix-cache/src/binary_cache.rs`), the error
taxonomy and its HTTP status mapping (`src/magic-nix-cache/src/error.rs`),
and the GitHub-Actions-cache replication worker
(`src/magic-nix-cache/src/gha.rs`).

Conventions of the embedding:
* HTTP bodies and blob contents are `String`s; store paths and hashes are
  `String`s.
* The shared server state (`super::State` in the source, used by the
  handlers via `Extension<State>`) is an explicit record threaded through
  each handler; the `RwLock<HashSet<String>>` negative cache is a
  `List String` with set semantics.
* The opendal blob-store client (`gha_cache.api`) is a pair of functions
  `read`/`write` returning `Except OpendalError _`; the source's
  writer-open / `copy` / `close` sequence of `put_narinfo`/`put_nar` is
  collapsed into the single fallible `write`.
* Every handler additionally returns the list of blob-backend operations
  it issued, so that "never reaches the backend" claims are statable.
-/

namespace MagicNixCache

/-- The error kinds of the opendal client that `error.rs` distinguishes
(`opendal::ErrorKind`); every kind other than `NotFound` and `RateLimited`
is collapsed into `Other` tagged with its name, since `into_response`
treats them all alike. -/
inductive OpendalErrorKind where
  | NotFound
  | RateLimited
  | Other (name : String)
  deriving Repr, DecidableEq

/-- An `opendal::Error`; only its `kind()` is inspected by the program. -/
structure OpendalError where
  kind : OpendalErrorKind
  deriving Repr, DecidableEq

/-- The error enum of `error.rs`. Payload types that live outside this
repository (`reqwest`, `netrc_rs`, `attic`, ...) are represented by
`String` placeholders; `IO(std::io::Error)` and `Io(std::io::Error, String)`
are rendered as `IoError` and `IoContext`. -/
inductive Error where
  | IoError (msg : String)
  | Api (err : OpendalError)
  | NotFound
  | BadRequest
  | IoContext (msg ctx : String)
  | GHADisabled
  | FlakeHub (msg : String)
  | FlakeHubHttp (msg : String)
  | GetCacheName (status : Nat) (msg : String)
  | Netrc (msg : String)
  | MissingCreds (url : String)
  | Attic (msg : String)
  | BadUrl (url : String)
  | Config (msg : String)
  | Internal (msg : String)
  deriving Repr, DecidableEq

/-- `impl IntoResponse for Error`: the HTTP status code chosen in
`error.rs` lines 59-74.  `Api` errors are matched first on
`RateLimited` (429), then `NotFound` (404), then fall to 418
(`IM_A_TEAPOT`, the deliberate "Nix shows the error but does not retry"
status); `Error::NotFound` is 404, `Error::BadRequest` is 400, and every
remaining variant is 500 (`INTERNAL_SERVER_ERROR`). -/
def Error.statusCode : Error → Nat
  | .Api err =>
      if err.kind = OpendalErrorKind.RateLimited then 429
      else if err.kind = OpendalErrorKind.NotFound then 404
      else 418
  | .NotFound => 404
  | .BadRequest => 400
  | _ => 500

/-- The telemetry counters whose increment points appear in
`binary_cache.rs` (`telemetry::TelemetryReport`). -/
structure Metrics where
  narinfos_served : Nat := 0
  narinfos_sent_upstream : Nat := 0
  narinfos_negative_cache_hits : Nat := 0
  narinfos_negative_cache_misses : Nat := 0
  narinfos_uploaded : Nat := 0
  nars_served : Nat := 0
  nars_sent_upstream : Nat := 0
  nars_uploaded : Nat := 0
  deriving Repr, DecidableEq

/-- The opendal-backed GitHub Actions cache API surface used by the
handlers: `api.read(key)` and the writer/copy/close write path. -/
structure Api where
  read : String → Except OpendalError String
  write : String → String → Except OpendalError Unit

/-- The `GhaCache` handle as seen from `binary_cache.rs`: the handlers
only touch its `api` field. -/
structure GhaCache where
  api : Api

/-- The shared server state consulted by the protocol handlers:
an optional GHA cache backend, an optional upstream cache URL, the
narinfo negative cache, and the telemetry counters. -/
structure State where
  gha_cache : Option GhaCache
  upstream : Option String
  narinfo_negative_cache : List String
  metrics : Metrics

/-- A blob-backend operation issued by a handler, recorded so that
"never reaches the backend" properties can be stated. -/
inductive BackendOp where
  | read (key : String)
  | write (key : String)
  deriving Repr, DecidableEq

/-- The two response shapes produced by the handlers: a 200 with a body,
or an HTTP temporary redirect. -/
inductive Response where
  | body (content : String)
  | redirect (location : String)
  deriving Repr, DecidableEq

/-- `HashSet::contains` on the negative cache, on the list model. -/
def setContains (s : List String) (x : String) : Bool :=
  s.any (fun y => y = x)

/-- `HashSet::insert` on the negative cache, on the list model. -/
def setInsert (s : List String) (x : String) : List String :=
  if setContains s x then s else x :: s

/-- `HashSet::remove` on the negative cache, on the list model. -/
def setRemove (s : List String) (x : String) : List String :=
  s.filter (fun y => y != x)

/-- `path.splitn(2, '.')` on the character list: `none` when the path has
no `'.'`, otherwise the pieces before and after the first `'.'`. -/
def splitn2Chars : List Char → Option (List Char × List Char)
  | [] => none
  | c :: rest =>
      if c = '.' then some ([], rest)
      else
        match splitn2Chars rest with
        | none => none
        | some (a, b) => some (c :: a, b)

/-- Rust's `path.splitn(2, '.').collect::<Vec<_>>()`: a one-element list
when `path` contains no `'.'`, otherwise the part before the first `'.'`
followed by everything after it. -/
def splitn2 (path : String) : List String :=
  match splitn2Chars path.toList with
  | none => [path]
  | some (a, b) => [String.mk a, String.mk b]

/-- `pull_through` (binary_cache.rs lines 183-189): redirect to
`{upstream}/{path}` when an upstream is configured, `Error::NotFound`
otherwise. -/
def pull_through (state : State) (path : String) : Except Error Response :=
  match state.upstream with
  | some upstream => Except.ok (Response.redirect (upstream ++ "/" ++ path))
  | none => Except.error Error.NotFound

/-- The tail of `get_narinfo` reached when the negative-cache check did
not hit and the backend read did not succeed (lines 74-79): insert the
hash into the negative cache, bump the upstream/negative-cache-miss
counters, and fall back to `pull_through`. -/
def getNarinfoMiss (state : State) (path store_path_hash : String)
    (ops : List BackendOp) : Except Error Response × State × List BackendOp :=
  let st : State :=
    { state with
      narinfo_negative_cache := setInsert state.narinfo_negative_cache store_path_hash
      metrics :=
        { state.metrics with
          narinfos_sent_upstream := state.metrics.narinfos_sent_upstream + 1
          narinfos_negative_cache_misses :=
            state.metrics.narinfos_negative_cache_misses + 1 } }
  (pull_through st path, st, ops)

/-- `get_narinfo` (binary_cache.rs lines 39-80).  Malformed paths (no
`'.'`, or suffix other than `narinfo`) yield `Error::NotFound`.  A
negative-cache hit redirects upstream.  Otherwise, when a backend is
configured and its read of `{hash}.narinfo` succeeds the bytes are
returned; in every other case (read failed for any reason, or no backend
configured) control falls through to the negative-cache insertion and the
upstream redirect. -/
def get_narinfo (state : State) (path : String) :
    Except Error Response × State × List BackendOp :=
  match splitn2 path with
  | [store_path_hash, suffix] =>
      if suffix = "narinfo" then
        let key := store_path_hash ++ ".narinfo"
        if setContains state.narinfo_negative_cache store_path_hash then
          let st : State :=
            { state with
              metrics :=
                { state.metrics with
                  narinfos_sent_upstream := state.metrics.narinfos_sent_upstream + 1
                  narinfos_negative_cache_hits :=
                    state.metrics.narinfos_negative_cache_hits + 1 } }
          (pull_through st path, st, [])
        else
          match state.gha_cache with
          | some gha_cache =>
              match gha_cache.api.read key with
              | Except.ok content =>
                  let st : State :=
                    { state with
                      metrics :=
                        { state.metrics with
                          narinfos_served := state.metrics.narinfos_served + 1 } }
                  (Except.ok (Response.body content), st, [BackendOp.read key])
              | Except.error _ =>
                  getNarinfoMiss state path store_path_hash [BackendOp.read key]
          | none => getNarinfoMiss state path store_path_hash []
      else (Except.error Error.NotFound, state, [])
  | _ => (Except.error Error.NotFound, state, [])

/-- `put_narinfo` (binary_cache.rs lines 82-128).  Malformed paths yield
`Error::BadRequest`; a missing backend yields `Error::GHADisabled`; a
failing backend write propagates as an `Api` error; on success the
uploaded counter is bumped and the hash is removed from the negative
cache. -/
def put_narinfo (state : State) (path body : String) :
    Except Error Unit × State × List BackendOp :=
  match splitn2 path with
  | [store_path_hash, suffix] =>
      if suffix = "narinfo" then
        match state.gha_cache with
        | none => (Except.error Error.GHADisabled, state, [])
        | some gha_cache =>
            let key := store_path_hash ++ ".narinfo"
            match gha_cache.api.write key body with
            | Except.error e => (Except.error (Error.Api e), state, [BackendOp.write key])
            | Except.ok _ =>
                let st : State :=
                  { state with
                    metrics :=
                      { state.metrics with
                        narinfos_uploaded := state.metrics.narinfos_uploaded + 1 }
                    narinfo_negative_cache :=
                      setRemove state.narinfo_negative_cache store_path_hash }
                (Except.ok (), st, [BackendOp.write key])
      else (Except.error Error.BadRequest, state, [])
  | _ => (Except.error Error.BadRequest, state, [])

/-- `get_nar` (binary_cache.rs lines 130-152).  In the source the pattern
`if let reader = ... .reader(&path).await?` is irrefutable, so whenever
the backend read succeeds the block returns the streamed bytes, and the
upstream-redirect block at lines 146-151 is unreachable: a missing
backend surfaces as `Error::GHADisabled` and a failed read propagates as
an `Api` error via `?`.  This definition is the reachable semantics. -/
def get_nar (state : State) (path : String) :
    Except Error Response × State × List BackendOp :=
  match state.gha_cache with
  | none => (Except.error Error.GHADisabled, state, [])
  | some gha_cache =>
      match gha_cache.api.read path with
      | Except.error e => (Except.error (Error.Api e), state, [BackendOp.read path])
      | Except.ok content =>
          let st : State :=
            { state with
              metrics :=
                { state.metrics with nars_served := state.metrics.nars_served + 1 } }
          (Except.ok (Response.body content), st, [BackendOp.read path])

/-- `put_nar` (binary_cache.rs lines 154-181): no path validation; a
missing backend yields `Error::GHADisabled`; on a successful write the
nars-uploaded counter is bumped. -/
def put_nar (state : State) (path body : String) :
    Except Error Unit × State × List BackendOp :=
  match state.gha_cache with
  | none => (Except.error Error.GHADisabled, state, [])
  | some gha_cache =>
      match gha_cache.api.write path body with
      | Except.error e => (Except.error (Error.Api e), state, [BackendOp.write path])
      | Except.ok _ =>
          let st : State :=
            { state with
              metrics :=
                { state.metrics with nars_uploaded := state.metrics.nars_uploaded + 1 } }
          (Except.ok (), st, [BackendOp.write path])

/-- The request type of the replication worker's queue (gha.rs lines
25-29).  Store paths are their identifier strings. -/
inductive Request where
  | Shutdown
  | Upload (path : String)
  deriving Repr, DecidableEq

/-- The `worker` loop of gha.rs lines 97-127, applied to the whole
sequence of requests it will ever receive (the channel is FIFO and this
is the single consumer).  `done` is the worker-local dedup `HashSet`.
The result is the list of store paths for which the upload pipeline
(`upload_path`) is executed, in execution order: a `Shutdown` breaks the
loop; an `Upload p` already in `done` is skipped (`!done.insert(..)`);
otherwise `p` is marked done and its upload is attempted (an upload
failure is only logged and does not affect `done` or the loop). -/
def workerUploads : List Request → List String → List String
  | [], _ => []
  | Request.Shutdown :: _, _ => []
  | Request.Upload p :: rest, done =>
      if setContains done p then workerUploads rest done
      else p :: workerUploads rest (p :: done)

/-- Whether an `Upload p` request occurs in the queue before the first
`Shutdown` (and before the channel would be exhausted). -/
def enqueuedBeforeShutdown (p : String) : List Request → Bool
  | [] => false
  | Request.Shutdown :: _ => false
  | Request.Upload q :: rest => q = p || enqueuedBeforeShutdown p rest

/-- The `GhaCache` fields relevant to `shutdown` (gha.rs lines 15-23):
`worker_result` holds the worker's join handle until the first shutdown
`take`s it (here: the result awaiting the handle would yield), and
`channel` records the requests sent through `channel_tx` so far. -/
structure GhaCacheState where
  worker_result : Option (Except Error Unit)
  channel : List Request

/-- The observable effects of one call to `GhaCache::shutdown`. -/
structure ShutdownOutcome where
  result : Except Error Unit
  state : GhaCacheState
  sent : List Request
  awaitedWorker : Bool

/-- `GhaCache::shutdown` (gha.rs lines 60-69): if `worker_result` still
holds the join handle, take it (leaving `None`), send `Request::Shutdown`
through the queue, await the worker and propagate its result; otherwise
return `Ok(())` at once, sending nothing and awaiting nothing. -/
def shutdown (st : GhaCacheState) : ShutdownOutcome :=
  match st.worker_result with
  | some res =>
      { result := res
        state :=
          { worker_result := none
            channel := st.channel ++ [Request.Shutdown] }
        sent := [Request.Shutdown]
        awaitedWorker := true }
  | none =>
      { result := Except.ok ()
        state := st
        sent := []
        awaitedWorker := false }

/-- The NAR-accumulation loop of `upload_path` (gha.rs lines 144-149):
`let mut nar: Vec<u8> = vec![]; while let Some(data) = nar_stream.next()
{ nar.append(&mut data?); }`.  The chunks of the NAR byte stream are
folded into a single in-memory buffer (the first stream error aborting
the pipeline), and only afterwards is `ZstdEncoder::new(&nar[..])`
constructed over that complete buffer. -/
def collectNar : List (Except Error (List Nat)) → List Nat → Except Error (List Nat)
  | [], nar => Except.ok nar
  | Except.error e :: _, _ => Except.error e
  | Except.ok data :: rest, nar => collectNar rest (nar ++ data)

/-- The HTTP statuses a client such as Nix treats as retryable: the 5xx
server errors and the standard back-off signals 408 and 429. -/
def retryableStatus (c : Nat) : Bool :=
  decide ((500 ≤ c ∧ c ≤ 599) ∨ c = 408 ∨ c = 429)

/-- A malformed narinfo path: no `'.'` at all, or a suffix after the
first `'.'` other than the literal `narinfo`. -/
def malformedNarinfoPath (path : String) : Bool :=
  match splitn2 path with
  | [_, suffix] => suffix != "narinfo"
  | _ => true

/-- A blob backend whose every read misses with a not-found error and
whose every write succeeds; used to exercise the handlers on concrete
inputs. -/
def missApi : Api :=
  { read := fun _ => Except.error { kind := OpendalErrorKind.NotFound }
    write := fun _ _ => Except.ok () }

/-- A blob backend whose every read fails with a rate-limited error. -/
def rateLimitedApi : Api :=
  { read := fun _ => Except.error { kind := OpendalErrorKind.RateLimited }
    write := fun _ _ => Except.ok () }

/-- A concrete server state: `missApi` backend, an upstream, an empty
negative cache, zeroed counters. -/
def st0 : State :=
  { gha_cache := some { api := missApi }
    upstream := some "https://up.example"
    narinfo_negative_cache := []
    metrics := {} }

/-- A concrete server state with no backend and no upstream configured. -/
def stNoBackend : State :=
  { gha_cache := none
    upstream := none
    narinfo_negative_cache := []
    metrics := {} }

/-- A concrete server state whose backend always answers rate-limited. -/
def stRateLimited : State :=
  { gha_cache := some { api := rateLimitedApi }
    upstream := none
    narinfo_negative_cache := []
    metrics := {} }

theorem setContains_cons (y : String) (s : List String) (x : String) :
    setContains (y :: s) x = (decide (y = x) || setContains s x) := by
  simp [setContains]

theorem setContains_insert_self (s : List String) (x : String) :
    setContains (setInsert s x) x = true := by
  by_cases h : setContains s x = true
  · simp [setInsert, h]
  · simp [setInsert, h, setContains_cons]

theorem setContains_remove_self (s : List String) (x : String) :
    setContains (setRemove s x) x = false := by
  induction s with
  | nil => rfl
  | cons y ys ih =>
      by_cases h : y = x
      · simpa [setRemove, List.filter_cons, h] using ih
      · simpa [setRemove, List.filter_cons, h, setContains_cons] using ih

theorem workerUploads_count (reqs : List Request) (done : List String) (p : String) :
    (workerUploads reqs done).count p =
      if setContains done p then 0
      else if enqueuedBeforeShutdown p reqs then 1 else 0 := by
  induction reqs generalizing done with
  | nil => simp [workerUploads, enqueuedBeforeShutdown]
  | cons req rest ih =>
      cases req with
      | Shutdown => simp [workerUploads, enqueuedBeforeShutdown]
      | Upload q =>
          by_cases hq : setContains done q = true
          · rw [workerUploads, if_pos hq, ih done]
            by_cases hp : setContains done p = true
            · simp [hp]
            · have hqp : q ≠ p := fun h => hp (h ▸ hq)
              simp [hp, enqueuedBeforeShutdown, hqp]
          · rw [workerUploads, if_neg hq]
            rw [List.count_cons, ih (q :: done), setContains_cons]
            by_cases hqp : q = p
            · subst hqp
              simp [hq, enqueuedBeforeShutdown]
            · by_cases hp : setContains done p = true
              · simp [hp, hqp]
              · simp [hp, hqp, enqueuedBeforeShutdown]

theorem collectNar_map_ok (chunks : List (List Nat)) (acc : List Nat) :
    collectNar (chunks.map Except.ok) acc = Except.ok (acc ++ chunks.flatten) := by
  induction chunks generalizing acc with
  | nil => simp [collectNar]
  | cons c cs ih => simp [collectNar, ih, List.append_assoc]

/-- C1: At-most-once upload — over any request sequence received by the
worker, the upload pipeline runs at most once for any store path `p`, and
exactly once when `Upload(p)` is enqueued before the first `Shutdown`;
every duplicate `Upload(p)` is discarded by the dedup set without another
pipeline execution. -/
theorem at_most_once_upload (reqs : List Request) (p : String) :
    (workerUploads reqs []).count p ≤ 1 ∧
      (enqueuedBeforeShutdown p reqs = true → (workerUploads reqs []).count p = 1) := by
  have h := workerUploads_count reqs [] p
  have hempty : setContains [] p = false := rfl
  rw [hempty] at h
  simp only [Bool.false_eq_true, if_false] at h
  constructor
  · rw [h]
    by_cases he : enqueuedBeforeShutdown p reqs = true <;> simp [he]
  · intro he
    rw [h, if_pos he]

/-- Witness for C1 at a concrete input: the path `abc` enqueued twice is
uploaded exactly once. -/
theorem at_most_once_upload_witness :
    (workerUploads [Request.Upload "abc", Request.Upload "abc"] []).count "abc" = 1 :=
  (at_most_once_upload [Request.Upload "abc", Request.Upload "abc"] "abc").2 (by decide)

/-- C6: Shutdown ordering — for the enqueue order `Upload A`, `Upload B`,
`Shutdown`, both `A` and `B` are attempted before the worker terminates,
the requests queued after `Shutdown` are never processed (the result does
not depend on them), and a `Shutdown` at the head makes the worker exit
its loop at once. -/
theorem shutdown_drains_ordering (A B : String) (rest : List Request) :
    A ∈ workerUploads (Request.Upload A :: Request.Upload B :: Request.Shutdown :: rest) [] ∧
    B ∈ workerUploads (Request.Upload A :: Request.Upload B :: Request.Shutdown :: rest) [] ∧
    workerUploads (Request.Upload A :: Request.Upload B :: Request.Shutdown :: rest) [] =
      workerUploads [Request.Upload A, Request.Upload B, Request.Shutdown] [] ∧
    (∀ queued : List Request, ∀ done : List String,
      workerUploads (Request.Shutdown :: queued) done = []) := by
  by_cases hBA : A = B
  · subst hBA
    simp [workerUploads, setContains]
  · constructor
    · simp [workerUploads, setContains_cons, setContains, hBA]
    · constructor
      · simp [workerUploads, setContains_cons, setContains, hBA]
      · constructor
        · simp [workerUploads, setContains_cons, setContains, hBA]
        · intro queued done
          rfl

/-- C7: the error-to-status mapping sends rate-limited backend errors to
429, not-found backend errors to 404, and every other backend error to
the non-standard 418, which is neither the plain server error 500 nor a
status a client retries on. -/
theorem error_status_mapping (e : OpendalError) :
    (e.kind = OpendalErrorKind.RateLimited → (Error.Api e).statusCode = 429) ∧
    (e.kind = OpendalErrorKind.NotFound → (Error.Api e).statusCode = 404) ∧
    (e.kind ≠ OpendalErrorKind.RateLimited → e.kind ≠ OpendalErrorKind.NotFound →
      (Error.Api e).statusCode = 418 ∧
      (Error.Api e).statusCode ≠ 500 ∧
      retryableStatus (Error.Api e).statusCode = false) := by
  obtain ⟨k⟩ := e
  cases k with
  | NotFound => simp [Error.statusCode]
  | RateLimited => simp [Error.statusCode]
  | Other name => simp [Error.statusCode, retryableStatus]

/-- Witness for C7 at concrete errors: a rate-limited error maps to 429,
a not-found error to 404, and an unexpected backend error to 418. -/
theorem error_status_mapping_witness :
    (Error.Api { kind := OpendalErrorKind.RateLimited }).statusCode = 429 ∧
    (Error.Api { kind := OpendalErrorKind.NotFound }).statusCode = 404 ∧
    (Error.Api { kind := OpendalErrorKind.Other "Unexpected" }).statusCode = 418 :=
  ⟨(error_status_mapping { kind := OpendalErrorKind.RateLimited }).1 rfl,
   (error_status_mapping { kind := OpendalErrorKind.NotFound }).2.1 rfl,
   ((error_status_mapping { kind := OpendalErrorKind.Other "Unexpected" }).2.2
      (by decide) (by decide)).1⟩

/-- C9 (the code evaluated against the claim): the NAR-accumulation loop
of `upload_path` folds every chunk of the payload stream into one
in-memory buffer holding the complete serialized payload — the buffer
handed to the compressor is the full concatenation, of length the sum of
all chunk lengths — so the payload is fully materialized before the
upload step, contrary to the streaming requirement (the source's own
`FIXME: make this streaming` comment marks this). -/
theorem nar_fully_materialized (chunks : List (List Nat)) :
    collectNar (chunks.map Except.ok) [] = Except.ok chunks.flatten ∧
    chunks.flatten.length = (chunks.map List.length).sum := by
  constructor
  · simpa using collectNar_map_ok chunks []
  · simp [List.length_flatten]

/-- C10: Shutdown is idempotent — after one `shutdown` call has
completed, a further call returns `Ok(())` immediately: it sends no
second `Shutdown` message, does not await the worker again, and leaves
the state unchanged. -/
theorem shutdown_idempotent (st : GhaCacheState) :
    (shutdown (shutdown st).state).result = Except.ok () ∧
    (shutdown (shutdown st).state).sent = [] ∧
    (shutdown (shutdown st).state).awaitedWorker = false ∧
    (shutdown (shutdown st).state).state = (shutdown st).state := by
  obtain ⟨wr, ch⟩ := st
  cases wr with
  | none => exact ⟨rfl, rfl, rfl, rfl⟩
  | some res => exact ⟨rfl, rfl, rfl, rfl⟩

/-- C2: Negative-cache invariant — after a `GET /{h}.narinfo` whose
backend lookup misses (the hash was not negative-cached, a backend is
configured, and its read of `{h}.narinfo` returned an error), `h` is in
the Negative Cache of the resulting state; and after any successful
`PUT /{h}.narinfo`, `h` is absent from it. -/
theorem negative_cache_invariant :
    (∀ (state : State) (path h : String) (gha : GhaCache) (e : OpendalError),
        splitn2 path = [h, "narinfo"] →
        state.gha_cache = some gha →
        setContains state.narinfo_negative_cache h = false →
        gha.api.read (h ++ ".narinfo") = Except.error e →
        setContains (get_narinfo state path).2.1.narinfo_negative_cache h = true) ∧
    (∀ (state : State) (path body h : String),
        splitn2 path = [h, "narinfo"] →
        (put_narinfo state path body).1 = Except.ok () →
        setContains (put_narinfo state path body).2.1.narinfo_negative_cache h = false) := by
  constructor
  · intro state path h gha e hsplit hgha hnc hread
    simp [get_narinfo, hsplit, hgha, hnc, hread, getNarinfoMiss, setContains_insert_self]
  · intro state path body h hsplit hok
    cases hgc : state.gha_cache with
    | none => simp [put_narinfo, hsplit, hgc] at hok
    | some gha =>
        cases hw : gha.api.write (h ++ ".narinfo") body with
        | error e => simp [put_narinfo, hsplit, hgc, hw] at hok
        | ok u => simp [put_narinfo, hsplit, hgc, hw, setContains_remove_self]

/-- Witness for C2 at a concrete input: against the always-missing
backend, `GET /abc.narinfo` leaves `abc` in the negative cache, and a
successful `PUT /abc.narinfo` removes it. -/
theorem negative_cache_invariant_witness :
    setContains (get_narinfo st0 "abc.narinfo").2.1.narinfo_negative_cache "abc" = true ∧
    setContains (put_narinfo st0 "abc.narinfo" "info").2.1.narinfo_negative_cache "abc" = false :=
  ⟨negative_cache_invariant.1 st0 "abc.narinfo" "abc" { api := missApi }
      { kind := OpendalErrorKind.NotFound } (by decide) rfl rfl rfl,
   negative_cache_invariant.2 st0 "abc.narinfo" "info" "abc" (by decide) rfl⟩

/-- C3 (counterexample): the claim that a hash reaches the Negative Cache
only after a backend read confirmed a miss is false — with no backend
configured, `GET /abc.narinfo` inserts `abc` while issuing no backend
operation at all, and with a backend whose read fails rate-limited (not
not-found), `GET /abc.narinfo` also inserts `abc`. -/
theorem negcache_insert_unconfirmed :
    (setContains (get_narinfo stNoBackend "abc.narinfo").2.1.narinfo_negative_cache "abc" = true ∧
      (get_narinfo stNoBackend "abc.narinfo").2.2 = []) ∧
    setContains (get_narinfo stRateLimited "abc.narinfo").2.1.narinfo_negative_cache "abc" = true :=
  ⟨⟨rfl, rfl⟩, rfl⟩

/-- C3 (amended): for a well-formed `GET /{h}.narinfo` whose hash is not
already negative-cached, `h` is inserted into the Negative Cache exactly
when the backend read did not succeed — on a not-found miss, but equally
when the backend is not configured or its read failed for any other
reason (e.g. rate limiting). -/
theorem negcache_insert_characterization (state : State) (path h : String)
    (hsplit : splitn2 path = [h, "narinfo"])
    (hnc : setContains state.narinfo_negative_cache h = false) :
    setContains (get_narinfo state path).2.1.narinfo_negative_cache h =
      (match state.gha_cache with
       | none => true
       | some gha =>
           match gha.api.read (h ++ ".narinfo") with
           | Except.ok _ => false
           | Except.error _ => true) := by
  cases hgc : state.gha_cache with
  | none =>
      simp [get_narinfo, hsplit, hnc, hgc, getNarinfoMiss, setContains_insert_self]
  | some gha =>
      cases hr : gha.api.read (h ++ ".narinfo") with
      | ok c => simp [get_narinfo, hsplit, hnc, hgc, hr]
      | error e =>
          simp [get_narinfo, hsplit, hnc, hgc, hr, getNarinfoMiss, setContains_insert_self]

/-- Witness for the amended C3 at a concrete input: with no backend
configured, `GET /abc.narinfo` inserts `abc` into the negative cache. -/
theorem negcache_insert_characterization_witness :
    setContains (get_narinfo stNoBackend "abc.narinfo").2.1.narinfo_negative_cache "abc" = true := by
  have h := negcache_insert_characterization stNoBackend "abc.narinfo" "abc" (by decide) rfl
  simpa using h

/-- C4 (counterexample): the claim that malformed narinfo GETs return the
malformed-request error (HTTP 400) is false — `GET /abc` (no dot)
returns `Error::NotFound`, which maps to 404, not 400. -/
theorem malformed_get_is_not_found :
    (get_narinfo st0 "abc").1 = Except.error Error.NotFound ∧
    Error.NotFound.statusCode = 404 ∧ Error.NotFound.statusCode ≠ 400 :=
  ⟨rfl, rfl, by decide⟩

/-- C4 (amended): for every malformed narinfo path (no `'.'`, or suffix
after the first `'.'` other than `narinfo`), `GET` returns
`Error::NotFound` (HTTP 404) and `PUT` returns `Error::BadRequest`
(HTTP 400), in both cases leaving the state untouched and issuing no
blob-backend operation. -/
theorem malformed_narinfo_rejected (state : State) (path body : String)
    (hmal : malformedNarinfoPath path = true) :
    get_narinfo state path = (Except.error Error.NotFound, state, []) ∧
    put_narinfo state path body = (Except.error Error.BadRequest, state, []) ∧
    Error.NotFound.statusCode = 404 ∧ Error.BadRequest.statusCode = 400 := by
  unfold malformedNarinfoPath at hmal
  cases hs : splitn2 path with
  | nil => simp [get_narinfo, put_narinfo, hs, Error.statusCode]
  | cons a rest =>
      cases rest with
      | nil => simp [get_narinfo, put_narinfo, hs, Error.statusCode]
      | cons b rest2 =>
          cases rest2 with
          | nil =>
              rw [hs] at hmal
              have hb : b ≠ "narinfo" := by simpa using hmal
              simp [get_narinfo, put_narinfo, hs, hb, Error.statusCode]
          | cons c rest3 =>
              simp [get_narinfo, put_narinfo, hs, Error.statusCode]

/-- Witness for the amended C4 at a concrete input: the dotless path
`abc` is rejected by both handlers without touching anything. -/
theorem malformed_narinfo_rejected_witness :
    get_narinfo stNoBackend "abc" = (Except.error Error.NotFound, stNoBackend, []) ∧
    put_narinfo stNoBackend "abc" "body" = (Except.error Error.BadRequest, stNoBackend, []) ∧
    Error.NotFound.statusCode = 404 ∧ Error.BadRequest.statusCode = 400 :=
  malformed_narinfo_rejected stNoBackend "abc" "body" (by decide)

/-- C5 (the code evaluated at the failing inputs): the upstream fallback
of `GET /nar/{key}` is unreachable — the `if let reader = ...` binding in
the source is irrefutable, so with the backend configured but missing the
key and an upstream configured, the handler propagates the backend
not-found error (HTTP 404) instead of redirecting, never incrementing the
sent-upstream counter; and with no backend configured it returns
`Error::GHADisabled` (HTTP 500) rather than `Error::NotFound`. -/
theorem get_nar_upstream_fallback_unreachable :
    (get_nar st0 "abc.nar.zstd").1 =
      Except.error (Error.Api { kind := OpendalErrorKind.NotFound }) ∧
    (get_nar st0 "abc.nar.zstd").2.1.metrics.nars_sent_upstream = 0 ∧
    (get_nar stNoBackend "abc.nar.zstd").1 = Except.error Error.GHADisabled ∧
    Error.GHADisabled.statusCode = 500 :=
  ⟨rfl, rfl, rfl, rfl⟩

/-- C8 (counterexample): the claim that the feature-disabled error maps
to a 503-class status is false — `PUT /abc.narinfo` with no backend
configured returns `Error::GHADisabled`, which the status mapping sends
through its catch-all to HTTP 500, not 503. -/
theorem feature_disabled_maps_to_500 :
    (put_narinfo stNoBackend "abc.narinfo" "body").1 = Except.error Error.GHADisabled ∧
    Error.GHADisabled.statusCode = 500 ∧ Error.GHADisabled.statusCode ≠ 503 :=
  ⟨rfl, rfl, by decide⟩

/-- C8 (amended): every well-formed `PUT /{hash}.narinfo` and every
`PUT /nar/{key}` issued while the blob backend is not configured returns
`Error::GHADisabled`, which maps to HTTP 500 — a server-error status
distinct from Not Found (404) — and performs no backend operation and no
state mutation. -/
theorem feature_disabled_rejects (state : State) (path hash body : String)
    (hnob : state.gha_cache = none) :
    (splitn2 path = [hash, "narinfo"] →
      put_narinfo state path body = (Except.error Error.GHADisabled, state, [])) ∧
    put_nar state path body = (Except.error Error.GHADisabled, state, []) ∧
    Error.GHADisabled.statusCode = 500 ∧ Error.GHADisabled.statusCode ≠ 404 := by
  refine ⟨?_, ?_, rfl, by decide⟩
  · intro hsplit
    simp [put_narinfo, hsplit, hnob]
  · simp [put_nar, hnob]

/-- Witness for the amended C8 at a concrete input: both PUT handlers
reject with `GHADisabled` when no backend is configured. -/
theorem feature_disabled_rejects_witness :
    put_narinfo stNoBackend "abc.narinfo" "body" =
      (Except.error Error.GHADisabled, stNoBackend, []) ∧
    put_nar stNoBackend "abc.narinfo" "body" =
      (Except.error Error.GHADisabled, stNoBackend, []) :=
  ⟨(feature_disabled_rejects stNoBackend "abc.narinfo" "abc" "body" rfl).1 (by decide),
   (feature_disabled_rejects stNoBackend "abc.narinfo" "abc" "body" rfl).2.1⟩

end MagicNixCache
